import Mathlib

/-!
# Verification of the CRRT clot-risk front end

Shallow embedding of the client-side logic of the `crrt_clot_app`
repository: the payload-construction code of `FullModelPage.handleSubmit`
(`fullmodelpage.jsx`), `Top10Page.handleSubmit` (`top10page.jsx`) and
`DemoPage.handlePredict` (`demopage.jsx`), the prompt construction of
`llmService.js` and its two variants, the HTTP client wrappers of `api.js`,
and the submit/mode handlers of `full57inputpage.jsx` and
`fullmodelpage.jsx`.

JavaScript values that can sit in the `features` React state are modelled
by `JSVal`.  A string is abstracted by the result of `parseFloat` on it
(`none` meaning `NaN`): the embedded code inspects strings only through
`parseFloat`, emptiness and truthiness.  JavaScript numbers are modelled
by `ℚ` (finite doubles) plus an explicit `nan` constructor; the exact
decimal rendering of a number inside a template literal is modelled by
`renderQ`, whose digits no claim depends on.
-/

/-- A JavaScript value as it can appear in the `features` state of the
pages: the empty string, `null`, `undefined`, a finite number, `NaN`, or a
nonempty string abstracted by its `parseFloat` result. -/
inductive JSVal where
  | empty : JSVal
  | null : JSVal
  | undefined : JSVal
  | num (q : ℚ) : JSVal
  | nan : JSVal
  | str (parsed : Option ℚ) : JSVal
deriving DecidableEq

/-- JavaScript truthiness of a `JSVal`: `''`, `null`, `undefined`, `0` and
`NaN` are falsy; any other number and any nonempty string are truthy. -/
def truthy : JSVal → Bool
  | .empty => false
  | .null => false
  | .undefined => false
  | .num q => decide (q ≠ 0)
  | .nan => false
  | .str _ => true

/-- Result of `parseFloat(v)`, with `none` standing for `NaN`
(`parseFloat` of `''`, `null` and `undefined` coerces to a non-numeric
string and yields `NaN`; on a number it is the identity). -/
def parseFloatVal : JSVal → Option ℚ
  | .empty => none
  | .null => none
  | .undefined => none
  | .num q => some q
  | .nan => none
  | .str p => p

/-- First-match lookup in an association list, mirroring JavaScript
property access `obj[key]` (objects never hold duplicate keys, so the
first match is the only one). -/
def getKey {α : Type} : List (String × α) → String → Option α
  | [], _ => none
  | (k, v) :: rest, key => if k = key then some v else getKey rest key

/-- `features[key]`: a missing property reads as `undefined`. -/
def jsGet (features : List (String × JSVal)) (key : String) : JSVal :=
  (getKey features key).getD .undefined

/-- The cleaning step of the payload loops in `fullmodelpage.jsx` and
`top10page.jsx`:
`value === '' || value === null || value === undefined ? 0 :
 (typeof value === 'number' ? value : parseFloat(value) || 0)`.
Note that `NaN` has `typeof ... === 'number'` and is passed through. -/
def cleanValue : JSVal → JSVal
  | .empty => .num 0
  | .null => .num 0
  | .undefined => .num 0
  | .num q => .num q
  | .nan => .nan
  | .str p => .num (p.getD 0)

/-- `features.x ? parseFloat(features.x) || 0 : 0`, the guarded dose read
used for `heparin_dose` and `citrate` in the mode branches. -/
def doseValue (v : JSVal) : ℚ :=
  if truthy v then (parseFloatVal v).getD 0 else 0

/-- The keys skipped by the generic payload loops because the mode
branches already set them. -/
def modeSkipKeys : List String :=
  ["mode_heparin", "mode_citrate", "mode_none", "heparin_dose", "citrate"]

/-- The mode-flag block shared verbatim by `FullModelPage.handleSubmit`
and `Top10Page.handleSubmit`: the selected anticoagulation mode sets the
three mode flags and the two dose fields. -/
def modeFlagsPart (mode : String) (features : List (String × JSVal)) :
    List (String × JSVal) :=
  if mode = "heparin" then
    [("mode_heparin", .num 1), ("mode_citrate", .num 0), ("mode_none", .num 0),
     ("heparin_dose", .num (doseValue (jsGet features "heparin_dose"))),
     ("citrate", .num 0)]
  else if mode = "citrate" then
    [("mode_heparin", .num 0), ("mode_citrate", .num 1), ("mode_none", .num 0),
     ("citrate", .num (doseValue (jsGet features "citrate"))),
     ("heparin_dose", .num 0)]
  else
    [("mode_heparin", .num 0), ("mode_citrate", .num 0), ("mode_none", .num 1),
     ("heparin_dose", .num 0), ("citrate", .num 0)]

/-- The payload built by `FullModelPage.handleSubmit` (`fullmodelpage.jsx`
lines 168-205): mode block first, then every other feature cleaned by
`cleanValue`, skipping the keys of the mode block. -/
def fullModelPayload (mode : String) (features : List (String × JSVal)) :
    List (String × JSVal) :=
  modeFlagsPart mode features ++
    (features.filter (fun kv => ¬ modeSkipKeys.contains kv.1)).map
      (fun kv => (kv.1, cleanValue kv.2))

/-- The fixed key list iterated by `Top10Page.handleSubmit`
(`top10page.jsx` lines 104-110). -/
def top20Keys : List String :=
  ["blood_flow", "fibrinogen", "phosphate", "filter_pressure", "effluent_pressure",
   "prefilter_replacement_rate", "creatinine", "return_pressure",
   "effluent_bloodflow_ratio", "dialysate_rate", "replacement_rate",
   "postfilter_replacement_rate", "creatinine_change", "ptt",
   "platelet_wbc_ratio", "ldh"]

/-- The payload built by `Top10Page.handleSubmit` (`top10page.jsx` lines
78-119): mode block first, then the sixteen `top20Keys` features cleaned
by `cleanValue`. -/
def top10Payload (mode : String) (features : List (String × JSVal)) :
    List (String × JSVal) :=
  modeFlagsPart mode features ++
    top20Keys.map (fun k => (k, cleanValue (jsGet features k)))

/-- The payload built by `DemoPage.handlePredict` (`demopage.jsx` lines
38-76).  The hypothetical-patient table of `patients.js` holds only
numeric literals, so the patient record is a numeric map; the derived
mode is citrate when `citrate > 0` and heparin is not positive, heparin
when `heparin_dose > 0` and citrate is not positive, and none otherwise. -/
def demoPayload (patient : List (String × ℚ)) : List (String × JSVal) :=
  let citrateV := getKey patient "citrate"
  let heparinV := getKey patient "heparin_dose"
  let hasCitrate := match citrateV with
    | some q => decide (q ≠ 0) && decide (0 < q)
    | none => false
  let hasHeparin := match heparinV with
    | some q => decide (q ≠ 0) && decide (0 < q)
    | none => false
  let modePart : List (String × JSVal) :=
    if hasCitrate && !hasHeparin then
      [("mode_heparin", .num 0), ("mode_citrate", .num 1), ("mode_none", .num 0),
       ("citrate", .num (citrateV.getD 0)), ("heparin_dose", .num 0)]
    else if hasHeparin && !hasCitrate then
      [("mode_heparin", .num 1), ("mode_citrate", .num 0), ("mode_none", .num 0),
       ("heparin_dose", .num (heparinV.getD 0)), ("citrate", .num 0)]
    else
      [("mode_heparin", .num 0), ("mode_citrate", .num 0), ("mode_none", .num 1),
       ("heparin_dose", .num 0), ("citrate", .num 0)]
  modePart ++
    (patient.filter (fun kv => ¬ modeSkipKeys.contains kv.1)).map
      (fun kv => (kv.1, JSVal.num kv.2))

/-! ## Prompt construction (`llmService.js` and its variants)

`Factor` is the element pushed onto `riskIncreasing` / `riskDecreasing` by
`buildClinicalPrompt`.  Feature maps reaching the prompt builders are
numeric maps (`List (String × ℚ)`); feature values only reach the prompt
through string interpolation, modelled by `renderQ` (the exact decimal
digits JavaScript would print are not reproduced and no claim depends on
them). -/

structure Factor where
  feature : String
  shapValue : ℚ
  value : Option ℚ
deriving DecidableEq

/-- Rendering of a number inside a template literal. -/
def renderQ (q : ℚ) : String :=
  if q.den = 1 then q.num.repr else q.num.repr ++ "/" ++ Nat.repr q.den

/-- Rendering of `features[feature]`: a missing property prints as
`undefined`. -/
def renderOpt : Option ℚ → String
  | none => "undefined"
  | some q => renderQ q

/-- Left-pad with zeros to `d` characters. -/
def padZeros (s : String) (d : ℕ) : String :=
  String.mk (List.replicate (d - s.length) '0') ++ s

/-- `Number.prototype.toFixed(d)`: sign, integer part, and exactly `d`
digits after the decimal point (rounding to nearest, half away from
zero).  `(2 * |num| * 10 ^ d + den) / (2 * den)` in natural-number
division is `⌊|q| * 10 ^ d + 1 / 2⌋`. -/
def toFixed (q : ℚ) (d : ℕ) : String :=
  let n : ℕ := (2 * q.num.natAbs * 10 ^ d + q.den) / (2 * q.den)
  let sign := if q.num < 0 then "-" else ""
  if d = 0 then sign ++ Nat.repr n
  else sign ++ Nat.repr (n / 10 ^ d) ++ "." ++ padZeros (Nat.repr (n % 10 ^ d)) d

/-- `String.prototype.toUpperCase()` for the ASCII risk levels, mapped
characterwise. -/
def jsToUpper (s : String) : String :=
  String.mk (s.data.map Char.toUpper)

/-- `Math.abs` on a finite number. -/
def ratAbs (q : ℚ) : ℚ :=
  if q < 0 then -q else q

/-- Fallback of `formatFeatureName`:
`feature.replace(/_/g, ' ').replace(/\b\w/g, l => l.toUpperCase())` for
the snake_case ASCII feature keys of this app. -/
def capitalizeWord (w : String) : String :=
  match w.data with
  | [] => ""
  | c :: cs => String.mk (c.toUpper :: cs)

def fallbackFeatureName (s : String) : String :=
  String.intercalate " " ((s.splitOn "_").map capitalizeWord)

/-- `formatFeatureName` of `llmService.js` (same ten-entry `nameMap` in
the `part_004` variant). -/
def formatFeatureName (feature : String) : String :=
  match feature with
  | "blood_flow" => "Blood Flow"
  | "citrate" => "Citrate Rate"
  | "heparin_dose" => "Heparin Dose"
  | "phosphate" => "Serum Phosphate"
  | "fibrinogen" => "Fibrinogen"
  | "effluent_pressure" => "Effluent Pressure"
  | "filter_pressure" => "Filter Pressure"
  | "prefilter_replacement_rate" => "Prefilter Replacement Rate"
  | "creatinine" => "Creatinine"
  | "replacement_rate" => "Total Replacement Rate"
  | _ => fallbackFeatureName feature

/-- The descending-absolute-SHAP order used by the
`(a, b) => Math.abs(b.shapValue) - Math.abs(a.shapValue)` comparator. -/
def shapGE (a b : Factor) : Prop := ratAbs b.shapValue ≤ ratAbs a.shapValue

instance : DecidableRel shapGE := fun _ _ => inferInstanceAs (Decidable (_ ≤ _))

instance : IsTotal Factor shapGE := ⟨fun _ _ => le_total _ _⟩

instance : IsTrans Factor shapGE := ⟨fun _ _ _ h1 h2 => le_trans h2 h1⟩

/-- The record pushed for entry `kv` of `topContributors`:
`{ feature, shapValue, value: features[feature] }`. -/
def mkFactor (features : List (String × ℚ)) (kv : String × ℚ) : Factor :=
  { feature := kv.1, shapValue := kv.2, value := getKey features kv.1 }

/-- `riskIncreasing`: the entries with `shapValue > 0`, in order, sorted
by descending absolute SHAP value (`Array.prototype.sort` is stable; the
claims do not depend on the order of ties). -/
def riskIncreasingOf (tc features : List (String × ℚ)) : List Factor :=
  List.insertionSort shapGE
    ((tc.filter (fun kv => decide (0 < kv.2))).map (mkFactor features))

/-- `riskDecreasing`: the entries of the `else` branch (`shapValue ≤ 0`,
including zero), sorted the same way. -/
def riskDecreasingOf (tc features : List (String × ℚ)) : List Factor :=
  List.insertionSort shapGE
    ((tc.filter (fun kv => !decide (0 < kv.2))).map (mkFactor features))

/-- One line of `increasingFactorsText` in `llmService.js` (and
`part_004`). -/
def incLineMain (f : Factor) : String :=
  "- " ++ formatFeatureName f.feature ++ ": " ++ renderOpt f.value ++
    " (SHAP impact: +" ++ toFixed f.shapValue 3 ++ ")"

/-- One line of `decreasingFactorsText` in `llmService.js` (and
`part_004`). -/
def decLineMain (f : Factor) : String :=
  "- " ++ formatFeatureName f.feature ++ ": " ++ renderOpt f.value ++
    " (SHAP impact: " ++ toFixed f.shapValue 3 ++ ")"

/-- `lines.join('\n')`. -/
def factorsText : List String → String
  | [] => ""
  | [l] => l
  | l :: rest => l ++ "\n" ++ factorsText rest

/-- `${text || 'None identified'}`: the empty string is falsy. -/
def orNone (s : String) : String :=
  if s = "" then "None identified" else s

/-- `assessAnticoagulationStatus` of `llmService.js` (lines 196-262). -/
def assessAnticoagulationStatus (citrate heparin ptt inr : ℚ) : String :=
  let usingCitrate := decide (citrate > 50)
  let usingHeparin := decide (heparin > 100)
  if usingCitrate && usingHeparin then
    "WARNING: Both citrate (" ++ renderQ citrate ++ ") and heparin (" ++
      renderQ heparin ++ ") detected - unusual dual anticoagulation"
  else if usingCitrate then
    let issues : List String :=
      (if citrate > 250 then ["Very high citrate (" ++ renderQ citrate ++ " mEq/hr)"]
       else if citrate > 200 then ["High citrate (" ++ renderQ citrate ++ " mEq/hr)"]
       else []) ++
      (if ptt > 50 then ["PTT elevated (" ++ renderQ ptt ++ "s)"] else []) ++
      (if inr > (1.8 : ℚ) then ["INR elevated (" ++ renderQ inr ++ ")"] else [])
    if issues.length ≥ 2 then
      "OVER-ANTICOAGULATED (Citrate) - " ++ String.intercalate ", " issues ++
        ". BLEEDING RISK."
    else if issues.length = 1 then
      "Possible over-anticoagulation (Citrate) - " ++ issues.headD ""
    else if citrate < 150 then
      "Citrate anticoagulation - may be subtherapeutic (" ++ renderQ citrate ++ " mEq/hr)"
    else
      "Citrate anticoagulation - therapeutic range (" ++ renderQ citrate ++ " mEq/hr)"
  else if usingHeparin then
    let issues : List String :=
      (if heparin > 1200 then ["Very high heparin (" ++ renderQ heparin ++ " units/hr)"]
       else if heparin > 1000 then ["High heparin (" ++ renderQ heparin ++ " units/hr)"]
       else []) ++
      (if ptt > 80 then ["PTT critically elevated (" ++ renderQ ptt ++ "s)"]
       else if ptt > 60 then ["PTT elevated (" ++ renderQ ptt ++ "s)"]
       else []) ++
      (if inr > (1.8 : ℚ) then ["INR elevated (" ++ renderQ inr ++ ")"] else [])
    if issues.length ≥ 2 then
      "OVER-ANTICOAGULATED (Heparin) - " ++ String.intercalate ", " issues ++
        ". BLEEDING RISK."
    else if issues.length = 1 then
      "Possible over-anticoagulation (Heparin) - " ++ issues.headD ""
    else if ptt < 30 ∧ heparin < 500 then
      "Heparin anticoagulation - likely subtherapeutic (PTT: " ++ renderQ ptt ++
        "s, Heparin: " ++ renderQ heparin ++ " units/hr)"
    else if 45 ≤ ptt ∧ ptt ≤ 60 then
      "Heparin anticoagulation - therapeutic range (PTT: " ++ renderQ ptt ++ "s)"
    else
      "Heparin anticoagulation - monitor PTT (current: " ++ renderQ ptt ++ "s)"
  else
    "Minimal/no anticoagulation detected (Citrate: " ++ renderQ citrate ++
      ", Heparin: " ++ renderQ heparin ++ ")"

/-- Head of the template literal of `buildClinicalPrompt`
(`llmService.js` line 123). -/
def mainPromptHead : String :=
  "PATIENT RISK ASSESSMENT:\n- Clot Formation Risk: "

/-- The risk-band block of the template (`llmService.js` lines 134-137):
the fixed text tying intervention intensity to risk-level bands. -/
def mainRiskBandText : String :=
  "1. Risk Level Context:\n   - LOW risk (<25%): Use conservative interventions. Patient is already well-managed.\n   - MODERATE risk (25-50%): Standard interventions appropriate.\n   - HIGH risk (>50%): More aggressive interventions may be needed."

/-- The `NEVER RECOMMEND` block (`llmService.js` lines 170-173): the fixed
text forbidding recommendations outside modifiable CRRT parameters. -/
def mainNeverText : String :=
  "NEVER RECOMMEND:\n- Increasing anticoagulation if patient is over-anticoagulated\n- Changes to lab values that cannot be directly controlled (phosphate, fibrinogen, creatinine)\n- Aggressive interventions for LOW risk patients"

/-- Opening of the constant tail. -/
def mainTailHead : String :=
  "\n\nCRITICAL CLINICAL CONSIDERATIONS:\n"

/-- Middle of the constant tail, between the risk bands and the `NEVER
RECOMMEND` block. -/
def mainTailMid : String :=
  "\n\n2. Anticoagulation Balance:\n   - If PTT >45 or INR >1.5 or citrate >200 or heparin >1000: Patient may be OVER-ANTICOAGULATED\n   - NEVER recommend increasing anticoagulation if patient is already over-anticoagulated\n   - Consider DECREASING anticoagulation if bleeding risk indicators present\n   - Balance clot prevention with bleeding risk\n\n3. Pressure Management:\n   - High filter pressure (>200 mmHg) increases clot risk\n   - Low pressures may indicate over-anticoagulation or under-filtration\n   - Consider the clinical context\n\nINSTRUCTIONS:\nGenerate 2-4 clinically appropriate, actionable recommendations.\n\nFOR LOW RISK PATIENTS (<25%):\n- Acknowledge patient is well-managed\n- Suggest MAINTENANCE or minor optimizations only\n- Do NOT recommend aggressive interventions\n- Focus on monitoring and sustaining current good outcomes\n\nFOR MODERATE/HIGH RISK:\n- Focus on modifiable parameters with highest positive SHAP values\n- Prioritize safe, evidence-based interventions\n- Consider the anticoagulation status before recommending changes\n\nMODIFIABLE PARAMETERS:\n- Blood flow rate adjustments\n- Anticoagulation (citrate, heparin) optimization - BUT RESPECT ANTICOAGULATION STATUS\n- Replacement/dialysate rate modifications\n- Filter pressure management\n\n"

/-- Ending of the constant tail: the required JSON reply format. -/
def mainTailEnd : String :=
  "\n\nREQUIRED JSON FORMAT - respond ONLY with valid JSON, no markdown:\n\x7b\n  \"summary\": \"One sentence clinical overview considering risk level and anticoagulation status\",\n  \"recommendations\": [\n    \x7b\n      \"priority\": 1,\n      \"parameter\": \"Filter Pressure\",\n      \"currentValue\": \"200 mmHg\",\n      \"recommendedAction\": \"Monitor and maintain current levels\",\n      \"rationale\": \"Brief clinical explanation considering context\",\n      \"targetingFactor\": \"filter_pressure\"\n    \x7d\n  ]\n\x7d\n\nEach recommendation must be clinically appropriate given the risk level and anticoagulation status. For LOW risk patients, focus on maintenance rather than aggressive changes."

/-- The constant tail of the template after the factor lists
(`llmService.js` lines 133-190). -/
def mainPromptTail : String :=
  mainTailHead ++ mainRiskBandText ++ mainTailMid ++ mainNeverText ++ mainTailEnd

/-- `buildClinicalPrompt` of `llmService.js` (lines 84-191). -/
def buildClinicalPrompt (percentage : ℚ) (riskLevel : String)
    (topContributors features : List (String × ℚ)) : String :=
  let incText := factorsText ((riskIncreasingOf topContributors features).map incLineMain)
  let decText := factorsText ((riskDecreasingOf topContributors features).map decLineMain)
  let citrate := (getKey features "citrate").getD 0
  let heparin := (getKey features "heparin_dose").getD 0
  let ptt := (getKey features "ptt").getD 0
  let inr := (getKey features "inr").getD 0
  mainPromptHead ++ toFixed percentage 1 ++ "% (" ++ jsToUpper riskLevel ++
    " RISK)\n- Anticoagulation Status: " ++
    assessAnticoagulationStatus citrate heparin ptt inr ++
    "\n\nKEY FACTORS INCREASING CLOT RISK:\n" ++ orNone incText ++
    "\n\nKEY FACTORS DECREASING CLOT RISK:\n" ++ orNone decText ++
    mainPromptTail

/-! ## Backend-variant prompt builder (`src/unnamed/part_003`) -/

/-- `delete obj[k]` on an association-list object: the other keys keep
their order. -/
def removeKey (l : List (String × ℚ)) (k : String) : List (String × ℚ) :=
  l.filter (fun kv => decide (kv.1 ≠ k))

/-- The `filteredContributors` computation of the `part_003`
`buildClinicalPrompt` (lines 58-86): the mode-irrelevant anticoagulant is
removed from the contributors, then the three mode flags are removed
unconditionally. -/
def filteredContributors (features topContributors : List (String × ℚ)) :
    List (String × ℚ) :=
  let modeHeparin := decide (getKey features "mode_heparin" = some 1)
  let modeCitrate := decide (getKey features "mode_citrate" = some 1)
  let modeNone := decide (getKey features "mode_none" = some 1)
  let fc :=
    if modeHeparin then
      removeKey (removeKey topContributors "citrate") "mode_citrate"
    else if modeCitrate then
      removeKey (removeKey topContributors "heparin_dose") "mode_heparin"
    else if modeNone then
      removeKey (removeKey (removeKey (removeKey topContributors "citrate")
        "heparin_dose") "mode_citrate") "mode_heparin"
    else topContributors
  removeKey (removeKey (removeKey fc "mode_heparin") "mode_citrate") "mode_none"

/-- `formatFeatureName` of `part_003` (21-entry `nameMap`). -/
def formatFeatureNameP3 (feature : String) : String :=
  match feature with
  | "blood_flow" => "Blood Flow"
  | "citrate" => "Citrate Rate"
  | "heparin_dose" => "Heparin Dose"
  | "phosphate" => "Serum Phosphate"
  | "fibrinogen" => "Fibrinogen"
  | "effluent_pressure" => "Effluent Pressure"
  | "filter_pressure" => "Filter Pressure"
  | "prefilter_replacement_rate" => "Prefilter Replacement Rate"
  | "creatinine" => "Creatinine"
  | "replacement_rate" => "Total Replacement Rate"
  | "return_pressure" => "Return Pressure"
  | "effluent_bloodflow_ratio" => "Effluent/Blood Flow Ratio"
  | "dialysate_rate" => "Dialysate Rate"
  | "postfilter_replacement_rate" => "Postfilter Replacement Rate"
  | "ptt" => "PTT"
  | "platelet_wbc_ratio" => "Platelet/WBC Ratio"
  | "ldh" => "LDH"
  | "mode_none" => "No Anticoagulation Mode"
  | "mode_heparin" => "Heparin Mode"
  | "mode_citrate" => "Citrate Mode"
  | "creatinine_change" => "Creatinine Change"
  | _ => fallbackFeatureName feature

/-- One line of `increasingFactorsText` in `part_003`. -/
def incLineP3 (f : Factor) : String :=
  "- " ++ formatFeatureNameP3 f.feature ++ ": " ++ renderOpt f.value ++
    " (SHAP: +" ++ toFixed f.shapValue 3 ++ ")"

/-- One line of `decreasingFactorsText` in `part_003`. -/
def decLineP3 (f : Factor) : String :=
  "- " ++ formatFeatureNameP3 f.feature ++ ": " ++ renderOpt f.value ++
    " (SHAP: " ++ toFixed f.shapValue 3 ++ ")"

/-- `assessAnticoagulationStatus` of `part_003` (lines 173-203). -/
def assessStatusP3 (features : List (String × ℚ)) : String :=
  let citrate := (getKey features "citrate").getD 0
  let heparin := (getKey features "heparin_dose").getD 0
  let ptt := (getKey features "ptt").getD 0
  let modeHeparin := decide (getKey features "mode_heparin" = some 1)
  let modeCitrate := decide (getKey features "mode_citrate" = some 1)
  let modeNone := decide (getKey features "mode_none" = some 1)
  if modeNone then "None"
  else if modeCitrate then "Citrate (" ++ renderQ citrate ++ " mEq/hr)"
  else if modeHeparin then
    "Heparin (" ++ renderQ heparin ++ " units/hr, PTT: " ++ renderQ ptt ++ "s)"
  else if citrate > 50 then "Citrate (" ++ renderQ citrate ++ " mEq/hr)"
  else if heparin > 100 then
    "Heparin (" ++ renderQ heparin ++ " units/hr, PTT: " ++ renderQ ptt ++ "s)"
  else "None detected"

/-- Head of the `part_003` template (line 120). -/
def p3PromptHead : String :=
  "You are an expert nephrologist specializing in CRRT (Continuous Renal Replacement Therapy) in the ICU. You are reviewing a machine learning-based CRRT clot risk prediction to provide clinical guidance on adjusting modifiable risk factors for clotting.\n\n  PATIENT DATA:\n  - Predicted Clot Risk: "

/-- The risk-band block of the `part_003` template (rule 6, lines
148-151). -/
def p3RiskBandText : String :=
  "6. Match intervention intensity to risk level:\n     - LOW (<35%): Maintenance only, acknowledge good control and do not recommend changes to any parameters\n     - MODERATE (35-65%): Targeted adjustments to top 2-3 risk factors\n     - HIGH (>65%): More aggressive interventions on multiple risk factors"

/-- Rule 4 of the `part_003` template: the fixed text forbidding
recommendations outside modifiable CRRT parameters. -/
def p3ModifiableText : String :=
  "4. ONLY recommend changes to modifiable CRRT parameters (not lab values like fibrinogen or creatinine)"

/-- Opening of the `part_003` constant tail. -/
def p3TailHead : String :=
  "\n  \n  REFERENCE RANGES:\n  - PTT: 60-90s is therapeutic for heparin (below 60s = subtherapeutic, above 90s = over-anticoagulated)\n  - Heparin dose: 500-1000 units/hr typical range\n  - Citrate: 150-200 mEq/hr typical range\n  - Blood flow: 150-250 mL/min typical\n  - Filter pressure: <200 mmHg preferred (>250 mmHg = high clot risk)\n  \n  CLINICAL RULES:\n  1. PRIORITIZE recommendations that target the top \"Factors INCREASING clot risk\" - these have the highest SHAP values and are driving the clot risk UP\n  2. Each recommendation should directly address one of the listed risk-increasing factors when possible\n  3. Do not recommend changes to Low Risk patients (less than 35% risk)\n  "

/-- Middle of the `part_003` constant tail. -/
def p3TailMid : String :=
  "\n  5. ANTICOAGULATION: Patients use EITHER citrate OR heparin, NEVER both simultaneously\n     - If patient is on heparin: adjust dose based on PTT (target 60-90s)\n     - If patient is on citrate: adjust citrate dose only\n  "

/-- Ending of the `part_003` constant tail. -/
def p3TailEnd : String :=
  "\n  \n  Generate 2-4 recommendations for moderate and high risk patients. Each recommendation MUST target a specific factor from the \"Factors INCREASING clot risk\" list. Respond with ONLY valid JSON, no markdown:\n  \n  \x7b\n    \"summary\": \"Brief clinical interpretation in one sentence\",\n    \"recommendations\": [\n      \x7b\n        \"priority\": 1,\n        \"parameter\": \"Parameter name\",\n        \"currentValue\": \"Current value with units\",\n        \"recommendedAction\": \"Specific action to take\",\n        \"rationale\": \"Why this helps reduce clot risk\",\n        \"targetingFactor\": \"feature_name_from_shap\"\n      \x7d\n    ]\n  \x7d"

/-- The constant tail of the `part_003` template after the factor lists
(lines 132-167). -/
def p3PromptTail : String :=
  p3TailHead ++ p3ModifiableText ++ p3TailMid ++ p3RiskBandText ++ p3TailEnd

/-- `buildClinicalPrompt` of `part_003` (lines 57-168): contributors are
filtered by mode before the partition into factor lists. -/
def buildClinicalPromptP3 (percentage : ℚ) (riskLevel : String)
    (topContributors features : List (String × ℚ)) : String :=
  let fc := filteredContributors features topContributors
  let incText := factorsText ((riskIncreasingOf fc features).map incLineP3)
  let decText := factorsText ((riskDecreasingOf fc features).map decLineP3)
  p3PromptHead ++ toFixed percentage 1 ++ "% (" ++ jsToUpper riskLevel ++
    ")\n  - Anticoagulation: " ++ assessStatusP3 features ++
    "\n  \n  RISK FACTORS (from SHAP analysis, listed in order of impact):\n  Factors INCREASING clot risk (address these first):\n  " ++
    orNone incText ++
    "\n  \n  Factors DECREASING clot risk (these are protective):\n  " ++
    orNone decText ++ p3PromptTail

/-! ## Legacy OpenAI-direct prompt builder (`src/unnamed/part_004`) -/

/-- The restriction sentence of the `part_004` template (line 135): the
fixed text forbidding recommendations outside modifiable CRRT
parameters. -/
def p4RestrictionText : String :=
  "Do NOT make recommendations about lab values or patient physiology that cannot be directly modified through CRRT settings."

/-- Opening of the `part_004` constant tail. -/
def p4TailHead : String :=
  "\n\nINSTRUCTIONS:\nGenerate 3-4 concise, actionable recommendations focusing on MODIFIABLE parameters that are increasing clot risk.\n\nPrioritize factors with highest SHAP values. Consider clinical safety - only suggest changes within safe ranges.\n\nFocus on modifiable parameters such as:\n- Blood flow rate adjustments\n- Anticoagulation (citrate, heparin) optimization  \n- Replacement/dialysate rate modifications\n- Filter pressure management\n\n"

/-- Ending of the `part_004` constant tail. -/
def p4TailEnd : String :=
  "\n\nREQUIRED JSON FORMAT - respond ONLY with valid JSON, no markdown, no other text:\n\x7b\n  \"summary\": \"One sentence overview of the clinical situation\",\n  \"recommendations\": [\n    \x7b\n      \"priority\": 1,\n      \"parameter\": \"Filter Pressure\",\n      \"currentValue\": \"200 mmHg\",\n      \"recommendedAction\": \"Decrease to <150 mmHg\",\n      \"rationale\": \"Brief explanation of why this reduces clot risk\",\n      \"targetingFactor\": \"filter_pressure\"\n    \x7d\n  ]\n\x7d\n\nEach recommendation must be specific, actionable, and include numeric targets when appropriate. Order by priority (1 = highest)."

/-- The constant tail of the `part_004` template after the factor lists
(lines 124-152).  It contains no risk-level-band text. -/
def p4PromptTail : String :=
  p4TailHead ++ p4RestrictionText ++ p4TailEnd

/-- `buildClinicalPrompt` of `part_004` (lines 84-153): same partition as
the main variant, no anticoagulation-status line, and a tail without
risk-level bands. -/
def buildClinicalPromptP4 (percentage : ℚ) (riskLevel : String)
    (topContributors features : List (String × ℚ)) : String :=
  let incText := factorsText ((riskIncreasingOf topContributors features).map incLineMain)
  let decText := factorsText ((riskDecreasingOf topContributors features).map decLineMain)
  mainPromptHead ++ toFixed percentage 1 ++ "% (" ++ jsToUpper riskLevel ++
    " RISK)\n\nKEY FACTORS INCREASING CLOT RISK:\n" ++ orNone incText ++
    "\n\nKEY FACTORS DECREASING CLOT RISK:\n" ++ orNone decText ++
    p4PromptTail

/-! ## HTTP client wrappers (`api.js`) -/

/-- The body of a successful reply of the prediction service, as consumed
by the result panels. -/
structure PredictionResponse where
  probability : ℚ
  risk_level : String
  percentage : ℚ
  top_contributors : List (String × ℚ)
deriving DecidableEq

/-- An axios response: the service reply body sits in `.data`. -/
structure AxiosResponse where
  status : ℕ
  data : PredictionResponse
deriving DecidableEq

/-- `predictFull` of `api.js` (lines 12-22): `post` models
`api.post('/predict/full', { features })`; on success the `.data` body is
returned unchanged, on failure the error is rethrown. -/
def predictFull (post : List (String × JSVal) → Except String AxiosResponse)
    (features : List (String × JSVal)) : Except String PredictionResponse :=
  match post features with
  | .ok response => .ok response.data
  | .error e => .error e

/-- `predictTop10` of `api.js` (lines 24-34): same shape against
`/predict/top10`. -/
def predictTop10 (post : List (String × JSVal) → Except String AxiosResponse)
    (features : List (String × JSVal)) : Except String PredictionResponse :=
  match post features with
  | .ok response => .ok response.data
  | .error e => .error e

/-! ## Reply parsing in `generateClinicalRecommendations` (`llmService.js`) -/

/-- A JSON value, the possible result of `JSON.parse`. -/
inductive Json where
  | null : Json
  | bool (b : Bool) : Json
  | num (q : ℚ) : Json
  | str (s : String) : Json
  | arr (items : List Json) : Json
  | obj (fields : List (String × Json)) : Json

/-- The shape the spec says is validated, following the spec's words: an
object with a `summary` string and a `recommendations` array.  This is
the spec-side definition of the refinement comparison for the parsing
claim; the code-side behaviour is `parseLLMContent`. -/
def conformsToRecommendationShape : Json → Bool
  | .obj fields =>
    (match getKey fields "summary" with
     | some (.str _) => true
     | _ => false) &&
    (match getKey fields "recommendations" with
     | some (.arr _) => true
     | _ => false)
  | _ => false

/-- The parse step of `generateClinicalRecommendations` (`llmService.js`
lines 67-73): `try { return JSON.parse(content); } catch { throw new
Error("Invalid response format from AI"); }`.  `parsed` is the outcome of
`JSON.parse(content)`, `none` when the content is not valid JSON and
`JSON.parse` throws. -/
def parseLLMContent (parsed : Option Json) : Except String Json :=
  match parsed with
  | some j => .ok j
  | none => .error "Invalid response format from AI"

/-! ## Submit and mode handlers (`full57inputpage.jsx`, i.e.
`src/unnamed/part_002`, and `fullmodelpage.jsx`) -/

/-- What a submit handler did: the request it issued (if any), the error
state it set, and the result state it left. -/
structure SubmitOutcome where
  request : Option (List (String × JSVal))
  error : Option String
  result : Option PredictionResponse
deriving DecidableEq

/-- The ten required keys of `Full57InputPage`
(`FEATURE_GROUPS['Top 10 Most Important (Required)']`). -/
def full57Top10Keys : List String :=
  ["blood_flow", "citrate", "heparin_dose", "phosphate", "fibrinogen",
   "effluent_pressure", "filter_pressure", "prefilter_replacement_rate",
   "creatinine", "replacement_rate"]

/-- `features[key] === '' || features[key] === null` (an absent key reads
`undefined`, which strict-equals neither). -/
def isMissingVal (v : Option JSVal) : Bool :=
  decide (v = some .empty) || decide (v = some .null)

/-- `Full57InputPage.handleSubmit` (`part_002` lines 147-170): validate
the ten required keys, abort with the fixed message before any request,
otherwise post the raw `features` state. -/
def full57HandleSubmit
    (remote : List (String × JSVal) → Except String PredictionResponse)
    (features : List (String × JSVal)) (prevResult : Option PredictionResponse) :
    SubmitOutcome :=
  let missingTop10 := full57Top10Keys.filter (fun k => isMissingVal (getKey features k))
  if missingTop10.length > 0 then
    { request := none, error := some "Please fill in all Top 10 required features",
      result := prevResult }
  else
    match remote features with
    | .ok response =>
      { request := some features, error := none, result := some response }
    | .error msg =>
      { request := some features, error := some msg, result := prevResult }

/-- The required keys of `FullModelPage.handleSubmit` (lines 144-145): the
page's top-10 group holds eight keys, further filtered against the dose
keys. -/
def fullModelRequiredKeys : List String :=
  (["blood_flow", "phosphate", "fibrinogen", "effluent_pressure",
    "filter_pressure", "prefilter_replacement_rate", "creatinine",
    "replacement_rate"]).filter
    (fun k => decide (k ≠ "heparin_dose") && decide (k ≠ "citrate"))

/-- `FullModelPage.handleSubmit` (`fullmodelpage.jsx` lines 141-228): the
mode-dependent dose checks come first, then the required-feature check;
each aborts before any request with `result` untouched; otherwise the
cleaned payload is posted. -/
def fullModelHandleSubmit
    (remote : List (String × JSVal) → Except String PredictionResponse)
    (mode : String) (features : List (String × JSVal))
    (prevResult : Option PredictionResponse) : SubmitOutcome :=
  if decide (mode = "heparin") &&
      (!truthy (jsGet features "heparin_dose") ||
        decide (jsGet features "heparin_dose" = .empty)) then
    { request := none,
      error := some "Heparin dose is required when Heparin mode is selected",
      result := prevResult }
  else if decide (mode = "citrate") &&
      (!truthy (jsGet features "citrate") ||
        decide (jsGet features "citrate" = .empty)) then
    { request := none,
      error := some "Citrate is required when Citrate mode is selected",
      result := prevResult }
  else if (fullModelRequiredKeys.filter
      (fun k => isMissingVal (getKey features k))).length > 0 then
    { request := none, error := some "Please fill in all required features",
      result := prevResult }
  else
    let payload := fullModelPayload mode features
    match remote payload with
    | .ok response =>
      { request := some payload, error := none, result := some response }
    | .error msg =>
      { request := some payload, error := some msg, result := prevResult }

/-- `{...prev, key: v}`: replace the binding of `key` in place, or append
it when absent. -/
def setKey : List (String × JSVal) → String → JSVal → List (String × JSVal)
  | [], key, v => [(key, v)]
  | (k, w) :: rest, key, v =>
    if k = key then (key, v) :: rest else (k, w) :: setKey rest key v

/-- `FullModelPage.handleModeChange` (lines 238-248), restricted to its
effect on the `features` state: the irrelevant dose fields are cleared to
`null`. -/
def handleModeChange (mode : String) (features : List (String × JSVal)) :
    List (String × JSVal) :=
  if mode = "heparin" then setKey features "citrate" .null
  else if mode = "citrate" then setKey features "heparin_dose" .null
  else setKey (setKey features "heparin_dose" .null) "citrate" .null

/-! ## Substring occurrence -/

/-- `pat` occurs contiguously in `hay`. -/
def containsText (hay pat : String) : Prop :=
  ∃ pre post : String, hay = pre ++ (pat ++ post)

/-- Executable substring check on character lists. -/
def charsContain (pat : List Char) : List Char → Bool
  | [] => List.isPrefixOf pat []
  | c :: rest => List.isPrefixOf pat (c :: rest) || charsContain pat rest

/-- Executable substring check on strings. -/
def strContainsB (hay pat : String) : Bool :=
  charsContain pat.data hay.data

/-- Mutually exclusive anticoagulation-mode encoding of a payload: exactly
one mode flag is 1, the other two are 0, and the dose of each inactive
anticoagulant is 0. -/
def modeFlagsExclusive (p : List (String × JSVal)) : Prop :=
  (getKey p "mode_heparin" = some (.num 1) ∧ getKey p "mode_citrate" = some (.num 0) ∧
    getKey p "mode_none" = some (.num 0) ∧ getKey p "citrate" = some (.num 0)) ∨
  (getKey p "mode_heparin" = some (.num 0) ∧ getKey p "mode_citrate" = some (.num 1) ∧
    getKey p "mode_none" = some (.num 0) ∧ getKey p "heparin_dose" = some (.num 0)) ∨
  (getKey p "mode_heparin" = some (.num 0) ∧ getKey p "mode_citrate" = some (.num 0) ∧
    getKey p "mode_none" = some (.num 1) ∧ getKey p "heparin_dose" = some (.num 0) ∧
    getKey p "citrate" = some (.num 0))

/-- A value a user left unfilled: the empty string, `null`, or
`undefined`. -/
def jsMissing (v : JSVal) : Prop :=
  v = .empty ∨ v = .null ∨ v = .undefined

/-! ## Helper lemmas -/

theorem getKey_append_some {α : Type} {l₁ : List (String × α)}
    (l₂ : List (String × α)) {k : String} {v : α} (h : getKey l₁ k = some v) :
    getKey (l₁ ++ l₂) k = some v := by
  induction l₁ with
  | nil => simp [getKey] at h
  | cons hd tl ih =>
    obtain ⟨k', w⟩ := hd
    by_cases hk : k' = k
    · simpa [getKey, hk] using h
    · rw [List.cons_append, getKey, if_neg hk]
      exact ih (by simpa [getKey, hk] using h)

/-! ## Claims -/

theorem exclusive_heparin_block (d : ℚ) (rest : List (String × JSVal)) :
    modeFlagsExclusive
      ([("mode_heparin", .num 1), ("mode_citrate", .num 0), ("mode_none", .num 0),
        ("heparin_dose", .num d), ("citrate", .num 0)] ++ rest) := by
  left
  exact ⟨getKey_append_some _ (by simp [getKey]),
    getKey_append_some _ (by simp [getKey]),
    getKey_append_some _ (by simp [getKey]),
    getKey_append_some _ (by simp [getKey])⟩

theorem exclusive_citrate_block (d : ℚ) (rest : List (String × JSVal)) :
    modeFlagsExclusive
      ([("mode_heparin", .num 0), ("mode_citrate", .num 1), ("mode_none", .num 0),
        ("citrate", .num d), ("heparin_dose", .num 0)] ++ rest) := by
  right; left
  exact ⟨getKey_append_some _ (by simp [getKey]),
    getKey_append_some _ (by simp [getKey]),
    getKey_append_some _ (by simp [getKey]),
    getKey_append_some _ (by simp [getKey])⟩

theorem exclusive_none_block (rest : List (String × JSVal)) :
    modeFlagsExclusive
      ([("mode_heparin", .num 0), ("mode_citrate", .num 0), ("mode_none", .num 1),
        ("heparin_dose", .num 0), ("citrate", .num 0)] ++ rest) := by
  right; right
  exact ⟨getKey_append_some _ (by simp [getKey]),
    getKey_append_some _ (by simp [getKey]),
    getKey_append_some _ (by simp [getKey]),
    getKey_append_some _ (by simp [getKey]),
    getKey_append_some _ (by simp [getKey])⟩

/-- **C1.**  For every submission built by the payload-construction logic
(`handleSubmit` in `FullModelPage` and `Top10Page`, `handlePredict` in
`DemoPage`) and every selected anticoagulation mode, the payload encodes
the mode mutually exclusively: exactly one of `mode_heparin`,
`mode_citrate`, `mode_none` equals 1 and the other two equal 0, and the
dose field of each inactive anticoagulant is 0 (heparin mode implies
`citrate = 0`, citrate mode implies `heparin_dose = 0`, none implies
both are 0). -/
theorem claim1_mode_encoding_exclusive (mode : String)
    (features : List (String × JSVal)) (patient : List (String × ℚ)) :
    modeFlagsExclusive (fullModelPayload mode features) ∧
    modeFlagsExclusive (top10Payload mode features) ∧
    modeFlagsExclusive (demoPayload patient) := by
  refine ⟨?_, ?_, ?_⟩
  · simp only [fullModelPayload, modeFlagsPart]
    split
    · exact exclusive_heparin_block _ _
    · split
      · exact exclusive_citrate_block _ _
      · exact exclusive_none_block _
  · simp only [top10Payload, modeFlagsPart]
    split
    · exact exclusive_heparin_block _ _
    · split
      · exact exclusive_citrate_block _ _
      · exact exclusive_none_block _
  · simp only [demoPayload]
    split
    · exact exclusive_citrate_block _ _
    · split
      · exact exclusive_heparin_block _ _
      · exact exclusive_none_block _

theorem getKey_mem {α : Type} {l : List (String × α)} {k : String} {v : α}
    (h : getKey l k = some v) : (k, v) ∈ l := by
  induction l with
  | nil => simp [getKey] at h
  | cons hd tl ih =>
    obtain ⟨k', w⟩ := hd
    by_cases hk : k' = k
    · subst hk
      rw [getKey, if_pos rfl] at h
      obtain rfl : w = v := by injection h
      exact List.mem_cons_self _ _
    · rw [getKey, if_neg hk] at h
      exact List.mem_cons_of_mem _ (ih h)

theorem cleanValue_num {v : JSVal} (h : v ≠ .nan) :
    ∃ q : ℚ, cleanValue v = JSVal.num q := by
  cases v <;> simp [cleanValue] at h ⊢

theorem modeFlagsPart_num (mode : String) (features : List (String × JSVal))
    {kv : String × JSVal} (h : kv ∈ modeFlagsPart mode features) :
    ∃ q : ℚ, kv.2 = JSVal.num q := by
  unfold modeFlagsPart at h
  split at h
  · simp only [List.mem_cons, List.not_mem_nil, or_false] at h
    rcases h with h | h | h | h | h <;> subst h <;> exact ⟨_, rfl⟩
  · split at h
    · simp only [List.mem_cons, List.not_mem_nil, or_false] at h
      rcases h with h | h | h | h | h <;> subst h <;> exact ⟨_, rfl⟩
    · simp only [List.mem_cons, List.not_mem_nil, or_false] at h
      rcases h with h | h | h | h | h <;> subst h <;> exact ⟨_, rfl⟩

/-- **C4 (counterexample).**  The claim "every key of the payload maps to
a finite number" fails on the code: a `features` state holding the number
`NaN` (which `FullModelPage.handleInputChange` stores for a non-parseable
input, since `parseFloat` of it is `NaN`) passes `typeof value ===
'number'` and is copied into the payload unchanged. -/
theorem claim4_counterexample :
    ¬ ∀ kv ∈ fullModelPayload "heparin" [("ptt", JSVal.nan)],
        ∃ q : ℚ, kv.2 = JSVal.num q := by
  intro h
  obtain ⟨q, hq⟩ := h ("ptt", JSVal.nan) (by decide)
  exact absurd hq (by simp)

/-- **C4 (amended).**  For every features state none of whose fields holds
the number `NaN`, every key of the payloads built by
`FullModelPage.handleSubmit` and `Top10Page.handleSubmit` maps to a finite
number; the cleaning maps `''`, `null` and `undefined` to 0, a string to
its `parseFloat` value (0 when that is `NaN`), and a finite number to
itself.  A field already holding `NaN` propagates `NaN` into the payload
(see the counterexample). -/
theorem claim4_payload_values_finite (mode : String)
    (features : List (String × JSVal))
    (hnan : ∀ kv ∈ features, kv.2 ≠ JSVal.nan) :
    (∀ kv ∈ fullModelPayload mode features, ∃ q : ℚ, kv.2 = JSVal.num q) ∧
    (∀ kv ∈ top10Payload mode features, ∃ q : ℚ, kv.2 = JSVal.num q) ∧
    (∀ patient : List (String × ℚ), ∀ kv ∈ demoPayload patient,
      ∃ q : ℚ, kv.2 = JSVal.num q) ∧
    (cleanValue .empty = .num 0 ∧ cleanValue .null = .num 0 ∧
      cleanValue .undefined = .num 0) ∧
    (∀ p : Option ℚ, cleanValue (.str p) = .num (p.getD 0)) ∧
    (∀ q : ℚ, cleanValue (.num q) = .num q) := by
  refine ⟨?_, ?_, ?_, ⟨rfl, rfl, rfl⟩, fun _ => rfl, fun _ => rfl⟩
  · intro kv hkv
    rcases List.mem_append.mp hkv with h | h
    · exact modeFlagsPart_num mode features h
    · obtain ⟨⟨k, v⟩, hmem, rfl⟩ := List.mem_map.mp h
      exact cleanValue_num (hnan _ (List.mem_of_mem_filter hmem))
  · intro kv hkv
    rcases List.mem_append.mp hkv with h | h
    · exact modeFlagsPart_num mode features h
    · obtain ⟨k, hk, rfl⟩ := List.mem_map.mp h
      refine cleanValue_num ?_
      unfold jsGet
      cases hg : getKey features k with
      | none => simp
      | some v => simpa using hnan _ (getKey_mem hg)
  · intro patient kv hkv
    simp only [demoPayload] at hkv
    rcases List.mem_append.mp hkv with h | h
    · split at h
      · simp only [List.mem_cons, List.not_mem_nil, or_false] at h
        rcases h with h | h | h | h | h <;> subst h <;> exact ⟨_, rfl⟩
      · split at h
        · simp only [List.mem_cons, List.not_mem_nil, or_false] at h
          rcases h with h | h | h | h | h <;> subst h <;> exact ⟨_, rfl⟩
        · simp only [List.mem_cons, List.not_mem_nil, or_false] at h
          rcases h with h | h | h | h | h <;> subst h <;> exact ⟨_, rfl⟩
    · obtain ⟨⟨k, v⟩, hmem, rfl⟩ := List.mem_map.mp h
      exact ⟨v, rfl⟩

/-- **C4 (witness).** -/
theorem claim4_witness :
    (∀ kv ∈ ([("ptt", JSVal.num 38)] : List (String × JSVal)),
      kv.2 ≠ JSVal.nan) ∧
    (∀ kv ∈ fullModelPayload "heparin" [("ptt", JSVal.num 38)],
      ∃ q : ℚ, kv.2 = JSVal.num q) :=
  ⟨by decide,
    (claim4_payload_values_finite "heparin" [("ptt", JSVal.num 38)]
      (by decide)).1⟩

/-- **C3 (counterexample).**  A successful reply whose content parses as
the JSON number `42` does not conform to the recommendations shape, yet
`generateClinicalRecommendations` returns it instead of throwing
`'Invalid response format from AI'`: no shape validation is performed. -/
theorem claim3_counterexample :
    parseLLMContent (some (Json.num 42)) = Except.ok (Json.num 42) ∧
    conformsToRecommendationShape (Json.num 42) = false ∧
    parseLLMContent (some (Json.num 42)) ≠
      Except.error "Invalid response format from AI" := by
  refine ⟨rfl, rfl, fun h => ?_⟩
  simp [parseLLMContent] at h

/-- **C3 (amended).**  `generateClinicalRecommendations` parses the reply
content as JSON and returns the parsed value unchanged whatever its
shape; it throws `'Invalid response format from AI'` exactly when the
content is not parseable JSON.  No validation of the returned JSON shape
is performed. -/
theorem claim3_parse_without_shape_validation :
    (∀ j : Json, parseLLMContent (some j) = Except.ok j) ∧
    parseLLMContent none = Except.error "Invalid response format from AI" :=
  ⟨fun _ => rfl, rfl⟩

/-- **C6.**  `predictFull` and `predictTop10` perform no risk computation
of their own: on every successful remote reply they return the reply body
(`response.data`) unchanged. -/
theorem claim6_api_passthrough
    (post : List (String × JSVal) → Except String AxiosResponse)
    (features : List (String × JSVal)) (resp : AxiosResponse)
    (h : post features = Except.ok resp) :
    predictFull post features = Except.ok resp.data ∧
    predictTop10 post features = Except.ok resp.data := by
  constructor <;> simp [predictFull, predictTop10, h]

/-- **C6 (witness).** -/
theorem claim6_witness :
    predictFull (fun _ => Except.ok ⟨200, ⟨1/2, "moderate", 50, []⟩⟩) [] =
      Except.ok ⟨1/2, "moderate", 50, []⟩ :=
  (claim6_api_passthrough (fun _ => Except.ok ⟨200, ⟨1/2, "moderate", 50, []⟩⟩)
    [] ⟨200, ⟨1/2, "moderate", 50, []⟩⟩ rfl).1

/-- **C7.**  `buildClinicalPrompt` is deterministic: two calls with equal
percentage, risk level, top contributors and features produce identical
prompts (the construction reads no ambient state; its embedding is a pure
function of these four arguments). -/
theorem claim7_prompt_deterministic (p₁ p₂ : ℚ) (r₁ r₂ : String)
    (tc₁ tc₂ f₁ f₂ : List (String × ℚ))
    (hp : p₁ = p₂) (hr : r₁ = r₂) (htc : tc₁ = tc₂) (hf : f₁ = f₂) :
    buildClinicalPrompt p₁ r₁ tc₁ f₁ = buildClinicalPrompt p₂ r₂ tc₂ f₂ ∧
    buildClinicalPromptP3 p₁ r₁ tc₁ f₁ = buildClinicalPromptP3 p₂ r₂ tc₂ f₂ := by
  subst hp; subst hr; subst htc; subst hf
  exact ⟨rfl, rfl⟩

/-- **C7 (witness).** -/
theorem claim7_witness :
    buildClinicalPrompt 50 "low" [] [] = buildClinicalPrompt 50 "low" [] [] :=
  (claim7_prompt_deterministic 50 50 "low" "low" [] [] [] []
    rfl rfl rfl rfl).1

theorem getKey_setKey_self (l : List (String × JSVal)) (key : String)
    (v : JSVal) : getKey (setKey l key v) key = some v := by
  induction l with
  | nil => simp [setKey, getKey]
  | cons hd tl ih =>
    obtain ⟨k', w⟩ := hd
    by_cases h : k' = key
    · simp [setKey, getKey, h]
    · simp [setKey, getKey, h, ih]

theorem getKey_setKey_other (l : List (String × JSVal)) (key k : String)
    (v : JSVal) (hk : k ≠ key) :
    getKey (setKey l key v) k = getKey l k := by
  have hk' : key ≠ k := Ne.symm hk
  induction l with
  | nil => simp [setKey, getKey, hk']
  | cons hd tl ih =>
    obtain ⟨k', w⟩ := hd
    by_cases h : k' = key
    · subst h
      simp [setKey, getKey, hk']
    · by_cases h2 : k' = k
      · simp [setKey, getKey, h, h2, hk]
      · simp [setKey, getKey, h, h2, ih]

/-- **C10.**  `FullModelPage.handleModeChange` modifies only the
anticoagulation fields of the features state: switching to heparin sets
`citrate` to `null` and leaves every other key unchanged, switching to
citrate sets `heparin_dose` to `null` and leaves every other key
unchanged, and switching to none sets both to `null` and leaves every
other key unchanged. -/
theorem claim10_mode_change_frame (features : List (String × JSVal)) :
    (getKey (handleModeChange "heparin" features) "citrate" = some JSVal.null ∧
      ∀ k, k ≠ "citrate" →
        getKey (handleModeChange "heparin" features) k = getKey features k) ∧
    (getKey (handleModeChange "citrate" features) "heparin_dose" = some JSVal.null ∧
      ∀ k, k ≠ "heparin_dose" →
        getKey (handleModeChange "citrate" features) k = getKey features k) ∧
    (getKey (handleModeChange "none" features) "heparin_dose" = some JSVal.null ∧
      getKey (handleModeChange "none" features) "citrate" = some JSVal.null ∧
      ∀ k, k ≠ "citrate" → k ≠ "heparin_dose" →
        getKey (handleModeChange "none" features) k = getKey features k) := by
  refine ⟨⟨?_, fun k hk => ?_⟩, ⟨?_, fun k hk => ?_⟩, ⟨?_, ?_, fun k hk hk2 => ?_⟩⟩
  · rw [handleModeChange, if_pos rfl]
    exact getKey_setKey_self _ _ _
  · rw [handleModeChange, if_pos rfl]
    exact getKey_setKey_other _ _ _ _ hk
  · rw [handleModeChange, if_neg (by decide), if_pos rfl]
    exact getKey_setKey_self _ _ _
  · rw [handleModeChange, if_neg (by decide), if_pos rfl]
    exact getKey_setKey_other _ _ _ _ hk
  · rw [handleModeChange, if_neg (by decide), if_neg (by decide)]
    rw [getKey_setKey_other _ _ _ _ (by decide)]
    exact getKey_setKey_self _ _ _
  · rw [handleModeChange, if_neg (by decide), if_neg (by decide)]
    exact getKey_setKey_self _ _ _
  · rw [handleModeChange, if_neg (by decide), if_neg (by decide)]
    rw [getKey_setKey_other _ _ _ _ hk]
    exact getKey_setKey_other _ _ _ _ hk2

/-- **C10 (witness).** -/
theorem claim10_witness :
    getKey (handleModeChange "heparin"
        [("ptt", JSVal.num 38), ("citrate", JSVal.num 200)]) "ptt" =
      getKey [("ptt", JSVal.num 38), ("citrate", JSVal.num 200)] "ptt" :=
  (claim10_mode_change_frame
    [("ptt", JSVal.num 38), ("citrate", JSVal.num 200)]).1.2 "ptt" (by decide)

theorem filter_length_pos {α : Type} {l : List α} {p : α → Bool}
    (h : ∃ x ∈ l, p x) : 0 < (l.filter p).length := by
  obtain ⟨x, hx, hpx⟩ := h
  exact List.length_pos.mpr
    (List.ne_nil_of_mem (List.mem_filter.mpr ⟨hx, hpx⟩))

theorem truthy_false_of_missing {v : JSVal} (h : jsMissing v) :
    truthy v = false := by
  rcases h with h | h | h <;> rw [h] <;> rfl

/-- **C9.**  Submission validation is atomic.  In
`Full57InputPage.handleSubmit`, if any of the ten required top-10 values
is `''` or `null`, no prediction request is issued, the result state is
unchanged, and the error is the fixed message.  In
`FullModelPage.handleSubmit`, a missing mode-dependent dose
(`heparin_dose` in heparin mode, `citrate` in citrate mode) or any
missing required feature aborts before any request, leaving the result
unchanged. -/
theorem claim9_submit_validation_atomic
    (remote : List (String × JSVal) → Except String PredictionResponse)
    (features : List (String × JSVal)) (prevResult : Option PredictionResponse)
    (mode : String) :
    ((∃ k ∈ full57Top10Keys, isMissingVal (getKey features k)) →
      (full57HandleSubmit remote features prevResult).request = none ∧
      (full57HandleSubmit remote features prevResult).error =
        some "Please fill in all Top 10 required features" ∧
      (full57HandleSubmit remote features prevResult).result = prevResult) ∧
    ((mode = "heparin" ∧ jsMissing (jsGet features "heparin_dose")) ∨
        (mode = "citrate" ∧ jsMissing (jsGet features "citrate")) ∨
        (∃ k ∈ fullModelRequiredKeys, isMissingVal (getKey features k)) →
      (fullModelHandleSubmit remote mode features prevResult).request = none ∧
      (fullModelHandleSubmit remote mode features prevResult).result = prevResult) := by
  constructor
  · intro h
    have hlen : 0 <
        (full57Top10Keys.filter (fun k => isMissingVal (getKey features k))).length :=
      filter_length_pos h
    rw [full57HandleSubmit, if_pos hlen]
    exact ⟨rfl, rfl, rfl⟩
  · intro h
    rcases h with ⟨rfl, hm⟩ | ⟨rfl, hm⟩ | hm
    · have ht := truthy_false_of_missing hm
      have hc : (decide (("heparin" : String) = "heparin") &&
          (!truthy (jsGet features "heparin_dose") ||
            decide (jsGet features "heparin_dose" = JSVal.empty))) = true := by
        rw [ht]; rfl
      rw [fullModelHandleSubmit, if_pos hc]
      exact ⟨rfl, rfl⟩
    · have ht := truthy_false_of_missing hm
      have hc1 : ¬ ((decide (("citrate" : String) = "heparin") &&
          (!truthy (jsGet features "heparin_dose") ||
            decide (jsGet features "heparin_dose" = JSVal.empty))) = true) := by
        simp
      have hc2 : (decide (("citrate" : String) = "citrate") &&
          (!truthy (jsGet features "citrate") ||
            decide (jsGet features "citrate" = JSVal.empty))) = true := by
        rw [ht]; rfl
      rw [fullModelHandleSubmit, if_neg hc1, if_pos hc2]
      exact ⟨rfl, rfl⟩
    · have hlen : 0 <
        (fullModelRequiredKeys.filter (fun k => isMissingVal (getKey features k))).length :=
        filter_length_pos hm
      by_cases hc1 : (decide (mode = "heparin") &&
          (!truthy (jsGet features "heparin_dose") ||
            decide (jsGet features "heparin_dose" = JSVal.empty))) = true
      · rw [fullModelHandleSubmit, if_pos hc1]
        exact ⟨rfl, rfl⟩
      · by_cases hc2 : (decide (mode = "citrate") &&
            (!truthy (jsGet features "citrate") ||
              decide (jsGet features "citrate" = JSVal.empty))) = true
        · rw [fullModelHandleSubmit, if_neg hc1, if_pos hc2]
          exact ⟨rfl, rfl⟩
        · rw [fullModelHandleSubmit, if_neg hc1, if_neg hc2, if_pos hlen]
          exact ⟨rfl, rfl⟩

/-- **C9 (witness).** -/
theorem claim9_witness :
    (full57HandleSubmit (fun _ => Except.error "x")
      [("blood_flow", JSVal.empty)] none).request = none ∧
    (full57HandleSubmit (fun _ => Except.error "x")
      [("blood_flow", JSVal.empty)] none).error =
        some "Please fill in all Top 10 required features" ∧
    (full57HandleSubmit (fun _ => Except.error "x")
      [("blood_flow", JSVal.empty)] none).result = none :=
  (claim9_submit_validation_atomic (fun _ => Except.error "x")
    [("blood_flow", JSVal.empty)] none "heparin").1
    ⟨"blood_flow", by decide, by decide⟩

theorem not_key_of_mem_removeKey {l : List (String × ℚ)} {k : String}
    {kv : String × ℚ} (h : kv ∈ removeKey l k) : kv.1 ≠ k := by
  simpa using List.of_mem_filter h

theorem mem_of_mem_removeKey {l : List (String × ℚ)} {k : String}
    {kv : String × ℚ} (h : kv ∈ removeKey l k) : kv ∈ l :=
  List.mem_of_mem_filter h

theorem factor_feature_of_mem {fc features : List (String × ℚ)} {f : Factor}
    (h : f ∈ riskIncreasingOf fc features ∨ f ∈ riskDecreasingOf fc features) :
    ∃ kv ∈ fc, f.feature = kv.1 := by
  rcases h with h | h
  · rw [riskIncreasingOf, List.mem_insertionSort] at h
    obtain ⟨kv, hkv, rfl⟩ := List.mem_map.mp h
    exact ⟨kv, List.mem_of_mem_filter hkv, rfl⟩
  · rw [riskDecreasingOf, List.mem_insertionSort] at h
    obtain ⟨kv, hkv, rfl⟩ := List.mem_map.mp h
    exact ⟨kv, List.mem_of_mem_filter hkv, rfl⟩

theorem filtered_mem {features tc : List (String × ℚ)} {kv : String × ℚ}
    (h : kv ∈ filteredContributors features tc) :
    kv.1 ≠ "mode_heparin" ∧ kv.1 ≠ "mode_citrate" ∧ kv.1 ≠ "mode_none" ∧
    (getKey features "mode_heparin" = some 1 → kv.1 ≠ "citrate") ∧
    (getKey features "mode_citrate" = some 1 →
      ¬ getKey features "mode_heparin" = some 1 → kv.1 ≠ "heparin_dose") := by
  simp only [filteredContributors] at h
  have h1 := not_key_of_mem_removeKey h
  have h' := mem_of_mem_removeKey h
  have h2 := not_key_of_mem_removeKey h'
  have h'' := mem_of_mem_removeKey h'
  have h3 := not_key_of_mem_removeKey h''
  have h''' := mem_of_mem_removeKey h''
  refine ⟨h3, h2, h1, ?_, ?_⟩
  · intro hmh
    rw [if_pos (decide_eq_true hmh)] at h'''
    exact not_key_of_mem_removeKey (mem_of_mem_removeKey h''')
  · intro hmc hmh
    have hd : ¬ (decide (getKey features "mode_heparin" = some 1) = true) := by
      simp [hmh]
    rw [if_neg hd, if_pos (decide_eq_true hmc)] at h'''
    exact not_key_of_mem_removeKey (mem_of_mem_removeKey h''')

/-- **C8 (counterexample).**  With both `mode_heparin = 1` and
`mode_citrate = 1` in the features map, only the `if (modeHeparin)` branch
of the `else if` chain runs, so `heparin_dose` is not removed and appears
in the produced factor list even though `features.mode_citrate` equals 1 —
the claim as stated is false. -/
theorem claim8_counterexample :
    getKey [("mode_heparin", (1 : ℚ)), ("mode_citrate", 1)] "mode_citrate" =
      some 1 ∧
    "heparin_dose" ∈ (riskIncreasingOf
      (filteredContributors [("mode_heparin", (1 : ℚ)), ("mode_citrate", 1)]
        [("heparin_dose", (1 : ℚ))])
      [("mode_heparin", (1 : ℚ)), ("mode_citrate", 1)]).map Factor.feature := by
  decide

/-- **C8 (amended).**  In the backend-variant prompt builder the factor
lists never contain the mode flags `mode_heparin`, `mode_citrate`,
`mode_none`; when `features.mode_heparin = 1` the `citrate` feature never
appears; and when `features.mode_citrate = 1` **and `mode_heparin ≠ 1`**
(the `else if` that actually runs) the `heparin_dose` feature never
appears. -/
theorem claim8_mode_flags_filtered (features tc : List (String × ℚ)) :
    (∀ f : Factor,
      (f ∈ riskIncreasingOf (filteredContributors features tc) features ∨
        f ∈ riskDecreasingOf (filteredContributors features tc) features) →
      f.feature ≠ "mode_heparin" ∧ f.feature ≠ "mode_citrate" ∧
        f.feature ≠ "mode_none") ∧
    (getKey features "mode_heparin" = some 1 →
      ∀ f : Factor,
        (f ∈ riskIncreasingOf (filteredContributors features tc) features ∨
          f ∈ riskDecreasingOf (filteredContributors features tc) features) →
        f.feature ≠ "citrate") ∧
    (getKey features "mode_citrate" = some 1 →
      ¬ getKey features "mode_heparin" = some 1 →
      ∀ f : Factor,
        (f ∈ riskIncreasingOf (filteredContributors features tc) features ∨
          f ∈ riskDecreasingOf (filteredContributors features tc) features) →
        f.feature ≠ "heparin_dose") := by
  refine ⟨fun f hf => ?_, fun hmh f hf => ?_, fun hmc hmh f hf => ?_⟩
  · obtain ⟨kv, hkv, hfe⟩ := factor_feature_of_mem hf
    have hp := filtered_mem hkv
    exact ⟨hfe ▸ hp.1, hfe ▸ hp.2.1, hfe ▸ hp.2.2.1⟩
  · obtain ⟨kv, hkv, hfe⟩ := factor_feature_of_mem hf
    exact hfe ▸ (filtered_mem hkv).2.2.2.1 hmh
  · obtain ⟨kv, hkv, hfe⟩ := factor_feature_of_mem hf
    exact hfe ▸ (filtered_mem hkv).2.2.2.2 hmc hmh

/-- **C8 (witness).** -/
theorem claim8_witness :
    ∀ f : Factor,
      (f ∈ riskIncreasingOf
        (filteredContributors [("mode_heparin", (1 : ℚ))] [("citrate", (2 : ℚ))])
        [("mode_heparin", (1 : ℚ))] ∨
       f ∈ riskDecreasingOf
        (filteredContributors [("mode_heparin", (1 : ℚ))] [("citrate", (2 : ℚ))])
        [("mode_heparin", (1 : ℚ))]) →
      f.feature ≠ "citrate" :=
  (claim8_mode_flags_filtered [("mode_heparin", (1 : ℚ))]
    [("citrate", (2 : ℚ))]).2.1 (by decide)

theorem ratAbs_eq_abs (q : ℚ) : ratAbs q = |q| := by
  rw [ratAbs]
  rcases lt_or_le q 0 with h | h
  · rw [if_pos h, abs_of_neg h]
  · rw [if_neg (not_lt.mpr h), abs_of_nonneg h]

theorem mem_riskIncreasingOf {tc features : List (String × ℚ)} {f : Factor} :
    f ∈ riskIncreasingOf tc features ↔
      ∃ kv, kv ∈ tc ∧ 0 < kv.2 ∧ f = mkFactor features kv := by
  rw [riskIncreasingOf, List.mem_insertionSort, List.mem_map]
  constructor
  · rintro ⟨kv, hkv, rfl⟩
    have h := List.mem_filter.mp hkv
    exact ⟨kv, h.1, by simpa using h.2, rfl⟩
  · rintro ⟨kv, h1, h2, rfl⟩
    exact ⟨kv, List.mem_filter.mpr ⟨h1, by simpa using h2⟩, rfl⟩

theorem mem_riskDecreasingOf {tc features : List (String × ℚ)} {f : Factor} :
    f ∈ riskDecreasingOf tc features ↔
      ∃ kv, kv ∈ tc ∧ ¬ 0 < kv.2 ∧ f = mkFactor features kv := by
  rw [riskDecreasingOf, List.mem_insertionSort, List.mem_map]
  constructor
  · rintro ⟨kv, hkv, rfl⟩
    have h := List.mem_filter.mp hkv
    exact ⟨kv, h.1, by simpa using h.2, rfl⟩
  · rintro ⟨kv, h1, h2, rfl⟩
    exact ⟨kv, List.mem_filter.mpr ⟨h1, by simpa using h2⟩, rfl⟩

theorem pairwise_abs_of_sorted {l : List Factor}
    (h : List.Sorted shapGE l) :
    List.Pairwise (fun a b => |b.shapValue| ≤ |a.shapValue|) l := by
  refine h.imp ?_
  intro a b hab
  rw [← ratAbs_eq_abs, ← ratAbs_eq_abs]
  exact hab

/-- **C2.**  `buildClinicalPrompt` partitions the `top_contributors`
entries by the sign of their SHAP value (strictly positive entries into
`riskIncreasing`, every other entry into `riskDecreasing`), sorts each
list in non-increasing order of absolute SHAP value, and when a list is
empty the prompt contains `None identified` in its place (right after
the corresponding section header). -/
theorem claim2_partition_sort_none (p : ℚ) (rl : String)
    (tc features : List (String × ℚ)) :
    (∀ f : Factor, f ∈ riskIncreasingOf tc features ↔
      ∃ kv, kv ∈ tc ∧ 0 < kv.2 ∧ f = mkFactor features kv) ∧
    (∀ f : Factor, f ∈ riskDecreasingOf tc features ↔
      ∃ kv, kv ∈ tc ∧ ¬ 0 < kv.2 ∧ f = mkFactor features kv) ∧
    List.Pairwise (fun a b => |b.shapValue| ≤ |a.shapValue|)
      (riskIncreasingOf tc features) ∧
    List.Pairwise (fun a b => |b.shapValue| ≤ |a.shapValue|)
      (riskDecreasingOf tc features) ∧
    (tc.filter (fun kv => decide (0 < kv.2)) = [] →
      ∃ pre post, buildClinicalPrompt p rl tc features =
        pre ++ ("\n\nKEY FACTORS INCREASING CLOT RISK:\n" ++
          ("None identified" ++ post))) ∧
    (tc.filter (fun kv => !decide (0 < kv.2)) = [] →
      ∃ pre post, buildClinicalPrompt p rl tc features =
        pre ++ ("\n\nKEY FACTORS DECREASING CLOT RISK:\n" ++
          ("None identified" ++ post))) := by
  refine ⟨fun f => mem_riskIncreasingOf, fun f => mem_riskDecreasingOf,
    pairwise_abs_of_sorted (List.sorted_insertionSort shapGE _),
    pairwise_abs_of_sorted (List.sorted_insertionSort shapGE _),
    fun hinc => ?_, fun hdec => ?_⟩
  · have hempty : riskIncreasingOf tc features = [] := by
      rw [riskIncreasingOf, hinc]; rfl
    refine ⟨mainPromptHead ++ toFixed p 1 ++ "% (" ++ jsToUpper rl ++
      " RISK)\n- Anticoagulation Status: " ++
      assessAnticoagulationStatus ((getKey features "citrate").getD 0)
        ((getKey features "heparin_dose").getD 0)
        ((getKey features "ptt").getD 0) ((getKey features "inr").getD 0),
      "\n\nKEY FACTORS DECREASING CLOT RISK:\n" ++
        orNone (factorsText ((riskDecreasingOf tc features).map decLineMain)) ++
        mainPromptTail, ?_⟩
    simp only [buildClinicalPrompt, hempty, List.map_nil, factorsText]
    rw [show orNone "" = "None identified" from rfl]
    simp only [String.append_assoc]
  · have hempty : riskDecreasingOf tc features = [] := by
      rw [riskDecreasingOf, hdec]; rfl
    refine ⟨mainPromptHead ++ toFixed p 1 ++ "% (" ++ jsToUpper rl ++
      " RISK)\n- Anticoagulation Status: " ++
      assessAnticoagulationStatus ((getKey features "citrate").getD 0)
        ((getKey features "heparin_dose").getD 0)
        ((getKey features "ptt").getD 0) ((getKey features "inr").getD 0) ++
      "\n\nKEY FACTORS INCREASING CLOT RISK:\n" ++
      orNone (factorsText ((riskIncreasingOf tc features).map incLineMain)),
      mainPromptTail, ?_⟩
    simp only [buildClinicalPrompt, hempty, List.map_nil, factorsText]
    rw [show orNone "" = "None identified" from rfl]
    simp only [String.append_assoc]

/-- **C2 (witness).** -/
theorem claim2_witness :
    ∃ pre post, buildClinicalPrompt 50 "low" [("ptt", (-1 : ℚ))] [] =
      pre ++ ("\n\nKEY FACTORS INCREASING CLOT RISK:\n" ++
        ("None identified" ++ post)) :=
  (claim2_partition_sort_none 50 "low" [("ptt", (-1 : ℚ))] []).2.2.2.2.1
    (by decide)

theorem isPrefixOf_append_self (l t : List Char) :
    List.isPrefixOf l (l ++ t) = true := by
  induction l with
  | nil => simp [List.isPrefixOf]
  | cons c cs ih => simp [List.isPrefixOf, ih]

theorem charsContain_nil_pat (l : List Char) : charsContain [] l = true := by
  cases l with
  | nil => rfl
  | cons c rest => simp [charsContain, List.isPrefixOf]

theorem charsContain_here (pat t : List Char) :
    charsContain pat (pat ++ t) = true := by
  cases pat with
  | nil => exact charsContain_nil_pat t
  | cons c cs => simp [charsContain, isPrefixOf_append_self]

theorem charsContain_shift (pat pre t : List Char)
    (h : charsContain pat t = true) : charsContain pat (pre ++ t) = true := by
  induction pre with
  | nil => exact h
  | cons c cs ih => simp [charsContain, ih]

theorem containsText_strContainsB {hay pat : String}
    (h : containsText hay pat) : strContainsB hay pat = true := by
  obtain ⟨pre, post, rfl⟩ := h
  rw [strContainsB, String.data_append, String.data_append]
  exact charsContain_shift _ _ _ (charsContain_here _ _)

theorem containsText_trans {s t u : String} (h1 : containsText s t)
    (h2 : containsText t u) : containsText s u := by
  obtain ⟨p1, q1, hs⟩ := h1
  obtain ⟨p2, q2, ht⟩ := h2
  exact ⟨p1 ++ p2, q2 ++ q1, by
    rw [hs, ht]; simp only [String.append_assoc]⟩

theorem padZeros_repr_length (n : ℕ) :
    (padZeros (Nat.repr (n % 10 ^ 1)) 1).length = 1 := by
  have h : n % 10 ^ 1 < 10 := by
    have := Nat.mod_lt n (y := 10 ^ 1) (by norm_num)
    simpa using this
  set m := n % 10 ^ 1 with hm
  interval_cases m <;> rfl

set_option maxRecDepth 20000 in
/-- **C5 (counterexample).**  The `part_004` variant of
`buildClinicalPrompt` produces a prompt that contains no risk-level-band
text at all: at a concrete input its prompt does not even contain the
substring `LOW`, while the band texts of the other two builders do, so
the prompt cannot contain either band text. -/
theorem claim5_counterexample :
    strContainsB (buildClinicalPromptP4 50 "" [] []) "LOW" = false ∧
    containsText mainRiskBandText "LOW" ∧
    containsText p3RiskBandText "LOW" ∧
    ¬ containsText (buildClinicalPromptP4 50 "" [] []) mainRiskBandText ∧
    ¬ containsText (buildClinicalPromptP4 50 "" [] []) p3RiskBandText := by
  have hlow : strContainsB (buildClinicalPromptP4 50 "" [] []) "LOW" = false := by
    decide
  have hband : containsText mainRiskBandText "LOW" :=
    ⟨"1. Risk Level Context:\n   - ",
     " risk (<25%): Use conservative interventions. Patient is already well-managed.\n   - MODERATE risk (25-50%): Standard interventions appropriate.\n   - HIGH risk (>50%): More aggressive interventions may be needed.",
     by decide⟩
  have hband3 : containsText p3RiskBandText "LOW" :=
    ⟨"6. Match intervention intensity to risk level:\n     - ",
     " (<35%): Maintenance only, acknowledge good control and do not recommend changes to any parameters\n     - MODERATE (35-65%): Targeted adjustments to top 2-3 risk factors\n     - HIGH (>65%): More aggressive interventions on multiple risk factors",
     by decide⟩
  refine ⟨hlow, hband, hband3, fun h => ?_, fun h => ?_⟩
  · have := containsText_strContainsB (containsText_trans h hband)
    rw [hlow] at this
    exact Bool.noConfusion this
  · have := containsText_strContainsB (containsText_trans h hband3)
    rw [hlow] at this
    exact Bool.noConfusion this

/-- **C5 (amended).**  The prompts of the `llmService.js` builder and of
the `part_003` backend variant always embed the risk percentage formatted
to one decimal place with the upper-cased risk level, and always contain
their fixed clinical-constraint texts — the risk-level bands and the
restriction to modifiable CRRT parameters — independent of the feature
values supplied.  The legacy `part_004` builder embeds the same risk
header and the modifiable-parameters restriction, but its prompt contains
no risk-level-band text (see the counterexample). -/
theorem claim5_risk_header_and_constraints (p : ℚ) (rl : String)
    (tc features : List (String × ℚ)) :
    (∃ mid, buildClinicalPrompt p rl tc features =
      mainPromptHead ++ (toFixed p 1 ++ ("% (" ++ (jsToUpper rl ++ mid)))) ∧
    containsText (buildClinicalPrompt p rl tc features) mainRiskBandText ∧
    containsText (buildClinicalPrompt p rl tc features) mainNeverText ∧
    (∃ mid, buildClinicalPromptP3 p rl tc features =
      p3PromptHead ++ (toFixed p 1 ++ ("% (" ++ (jsToUpper rl ++ mid)))) ∧
    containsText (buildClinicalPromptP3 p rl tc features) p3RiskBandText ∧
    containsText (buildClinicalPromptP3 p rl tc features) p3ModifiableText ∧
    (∃ mid, buildClinicalPromptP4 p rl tc features =
      mainPromptHead ++ (toFixed p 1 ++ ("% (" ++ (jsToUpper rl ++ mid)))) ∧
    containsText (buildClinicalPromptP4 p rl tc features) p4RestrictionText ∧
    (∃ a b, toFixed p 1 = a ++ ("." ++ b) ∧ b.length = 1) := by
  refine ⟨⟨" RISK)\n- Anticoagulation Status: " ++
      assessAnticoagulationStatus ((getKey features "citrate").getD 0)
        ((getKey features "heparin_dose").getD 0)
        ((getKey features "ptt").getD 0) ((getKey features "inr").getD 0) ++
      "\n\nKEY FACTORS INCREASING CLOT RISK:\n" ++
      orNone (factorsText ((riskIncreasingOf tc features).map incLineMain)) ++
      "\n\nKEY FACTORS DECREASING CLOT RISK:\n" ++
      orNone (factorsText ((riskDecreasingOf tc features).map decLineMain)) ++
      mainPromptTail,
      by simp only [buildClinicalPrompt, String.append_assoc]⟩,
    ?_, ?_,
    ⟨")\n  - Anticoagulation: " ++ assessStatusP3 features ++
      "\n  \n  RISK FACTORS (from SHAP analysis, listed in order of impact):\n  Factors INCREASING clot risk (address these first):\n  " ++
      orNone (factorsText
        ((riskIncreasingOf (filteredContributors features tc) features).map incLineP3)) ++
      "\n  \n  Factors DECREASING clot risk (these are protective):\n  " ++
      orNone (factorsText
        ((riskDecreasingOf (filteredContributors features tc) features).map decLineP3)) ++
      p3PromptTail,
      by simp only [buildClinicalPromptP3, String.append_assoc]⟩,
    ?_, ?_,
    ⟨" RISK)\n\nKEY FACTORS INCREASING CLOT RISK:\n" ++
      orNone (factorsText ((riskIncreasingOf tc features).map incLineMain)) ++
      "\n\nKEY FACTORS DECREASING CLOT RISK:\n" ++
      orNone (factorsText ((riskDecreasingOf tc features).map decLineMain)) ++
      p4PromptTail,
      by simp only [buildClinicalPromptP4, String.append_assoc]⟩,
    ?_, ?_⟩
  · exact ⟨mainPromptHead ++ toFixed p 1 ++ "% (" ++ jsToUpper rl ++
      " RISK)\n- Anticoagulation Status: " ++
      assessAnticoagulationStatus ((getKey features "citrate").getD 0)
        ((getKey features "heparin_dose").getD 0)
        ((getKey features "ptt").getD 0) ((getKey features "inr").getD 0) ++
      "\n\nKEY FACTORS INCREASING CLOT RISK:\n" ++
      orNone (factorsText ((riskIncreasingOf tc features).map incLineMain)) ++
      "\n\nKEY FACTORS DECREASING CLOT RISK:\n" ++
      orNone (factorsText ((riskDecreasingOf tc features).map decLineMain)) ++
      mainTailHead,
      mainTailMid ++ mainNeverText ++ mainTailEnd,
      by simp only [buildClinicalPrompt, mainPromptTail, String.append_assoc]⟩
  · exact ⟨mainPromptHead ++ toFixed p 1 ++ "% (" ++ jsToUpper rl ++
      " RISK)\n- Anticoagulation Status: " ++
      assessAnticoagulationStatus ((getKey features "citrate").getD 0)
        ((getKey features "heparin_dose").getD 0)
        ((getKey features "ptt").getD 0) ((getKey features "inr").getD 0) ++
      "\n\nKEY FACTORS INCREASING CLOT RISK:\n" ++
      orNone (factorsText ((riskIncreasingOf tc features).map incLineMain)) ++
      "\n\nKEY FACTORS DECREASING CLOT RISK:\n" ++
      orNone (factorsText ((riskDecreasingOf tc features).map decLineMain)) ++
      mainTailHead ++ mainRiskBandText ++ mainTailMid,
      mainTailEnd,
      by simp only [buildClinicalPrompt, mainPromptTail, String.append_assoc]⟩
  · exact ⟨p3PromptHead ++ toFixed p 1 ++ "% (" ++ jsToUpper rl ++
      ")\n  - Anticoagulation: " ++ assessStatusP3 features ++
      "\n  \n  RISK FACTORS (from SHAP analysis, listed in order of impact):\n  Factors INCREASING clot risk (address these first):\n  " ++
      orNone (factorsText
        ((riskIncreasingOf (filteredContributors features tc) features).map incLineP3)) ++
      "\n  \n  Factors DECREASING clot risk (these are protective):\n  " ++
      orNone (factorsText
        ((riskDecreasingOf (filteredContributors features tc) features).map decLineP3)) ++
      p3TailHead ++ p3ModifiableText ++ p3TailMid,
      p3TailEnd,
      by simp only [buildClinicalPromptP3, p3PromptTail, String.append_assoc]⟩
  · exact ⟨p3PromptHead ++ toFixed p 1 ++ "% (" ++ jsToUpper rl ++
      ")\n  - Anticoagulation: " ++ assessStatusP3 features ++
      "\n  \n  RISK FACTORS (from SHAP analysis, listed in order of impact):\n  Factors INCREASING clot risk (address these first):\n  " ++
      orNone (factorsText
        ((riskIncreasingOf (filteredContributors features tc) features).map incLineP3)) ++
      "\n  \n  Factors DECREASING clot risk (these are protective):\n  " ++
      orNone (factorsText
        ((riskDecreasingOf (filteredContributors features tc) features).map decLineP3)) ++
      p3TailHead,
      p3TailMid ++ p3RiskBandText ++ p3TailEnd,
      by simp only [buildClinicalPromptP3, p3PromptTail, String.append_assoc]⟩
  · exact ⟨mainPromptHead ++ toFixed p 1 ++ "% (" ++ jsToUpper rl ++
      " RISK)\n\nKEY FACTORS INCREASING CLOT RISK:\n" ++
      orNone (factorsText ((riskIncreasingOf tc features).map incLineMain)) ++
      "\n\nKEY FACTORS DECREASING CLOT RISK:\n" ++
      orNone (factorsText ((riskDecreasingOf tc features).map decLineMain)) ++
      p4TailHead,
      p4TailEnd,
      by simp only [buildClinicalPromptP4, p4PromptTail, String.append_assoc]⟩
  · refine ⟨(if p.num < 0 then "-" else "") ++
      Nat.repr ((2 * p.num.natAbs * 10 ^ 1 + p.den) / (2 * p.den) / 10 ^ 1),
      padZeros (Nat.repr ((2 * p.num.natAbs * 10 ^ 1 + p.den) / (2 * p.den) % 10 ^ 1)) 1,
      ?_, padZeros_repr_length _⟩
    simp only [toFixed]
    rw [if_neg one_ne_zero]
    simp only [String.append_assoc]
